import Mathlib

/-!
Shallow embedding of `musicalert.py` (vladak/weather): the Grafana alert
webhook handler.  Python dictionaries with insertion order become
association lists, the thread-safe play queue becomes a `List String`
with `put` appending at the rear, Python exceptions become an explicit
error type threaded through results, and `datetime` values become a
record ordered lexicographically (as Python orders them).

Regular expressions (Python `re`) are embedded as a small regex syntax
with Brzozowski-derivative acceptance; `re.match` semantics (the pattern
must match a prefix starting at position 0) and `re.search` semantics
(the pattern may match anywhere) are both defined so that statements can
distinguish them.
-/

namespace Musicalert

/-! ## Regular expressions (embedding of the parts of Python `re` used) -/

inductive Regex where
  | emp : Regex
  | eps : Regex
  | chr : Char → Regex
  | any : Regex
  | alt : Regex → Regex → Regex
  | cat : Regex → Regex → Regex
  | star : Regex → Regex
deriving DecidableEq, Repr

def Regex.nullable : Regex → Bool
  | .emp => false
  | .eps => true
  | .chr _ => false
  | .any => false
  | .alt r1 r2 => r1.nullable || r2.nullable
  | .cat r1 r2 => r1.nullable && r2.nullable
  | .star _ => true

def Regex.deriv : Regex → Char → Regex
  | .emp, _ => .emp
  | .eps, _ => .emp
  | .chr c, a => if a = c then .eps else .emp
  | .any, _ => .eps
  | .alt r1 r2, a => .alt (r1.deriv a) (r2.deriv a)
  | .cat r1 r2, a =>
      if r1.nullable then .alt (.cat (r1.deriv a) r2) (r2.deriv a)
      else .cat (r1.deriv a) r2
  | .star r, a => .cat (r.deriv a) (.star r)

def Regex.accepts : Regex → List Char → Bool
  | r, [] => r.nullable
  | r, c :: cs => (r.deriv c).accepts cs

/-- A literal pattern: the concatenation of its characters. -/
def Regex.lit (s : String) : Regex :=
  s.data.foldr (fun c r => .cat (.chr c) r) .eps

/-- Python `re.match(r, s)` is truthy: `r` matches some prefix of `s`
starting at position 0. -/
def reMatch (r : Regex) (s : String) : Bool :=
  (List.range (s.length + 1)).any fun n => r.accepts (s.data.take n)

/-- Python `re.search(r, s)` is truthy: `r` matches somewhere in `s`. -/
def reSearch (r : Regex) (s : String) : Bool :=
  (List.range (s.length + 1)).any fun i => reMatch r (String.mk (s.data.drop i))

/-! ## Python `datetime` (the fields and ordering `do_not_disturb` uses) -/

structure PyDatetime where
  year : Nat
  month : Nat
  day : Nat
  hour : Nat
  minute : Nat
deriving DecidableEq, Repr

/-- Python compares `datetime` values lexicographically by field. -/
def dtLt (a b : PyDatetime) : Bool :=
  if a.year ≠ b.year then decide (a.year < b.year)
  else if a.month ≠ b.month then decide (a.month < b.month)
  else if a.day ≠ b.day then decide (a.day < b.day)
  else if a.hour ≠ b.hour then decide (a.hour < b.hour)
  else decide (a.minute < b.minute)

/-- `a <= b` on Python datetimes: `a < b` or `a = b`. -/
def dtLe (a b : PyDatetime) : Bool :=
  dtLt a b || decide (a = b)

/-- `datetime.combine(date(y, m, d), time(hour=h))`. -/
def datetime_combine (year month day hour : Nat) : PyDatetime :=
  ⟨year, month, day, hour, 0⟩

/-- `GrafanaAlertHandler.do_not_disturb` (musicalert.py lines 43-58):
true when `now` is before the start hour or after the end hour of today. -/
def do_not_disturb (start_hr end_hr : Nat) (now : PyDatetime) : Bool :=
  let start_time := datetime_combine now.year now.month now.day start_hr
  let end_time := datetime_combine now.year now.month now.day end_hr
  dtLt now start_time || dtLt end_time now

/-! ## Alert payload data model -/

structure Labels where
  alertname : Option String
deriving DecidableEq, Repr

/-- One item of the `alerts` list of a Grafana batch payload.  Each field
is `Option` because `.get` on a Python dict returns `None` for a missing
key; `labels` itself may be absent. -/
structure Alert where
  status : Option String
  labels : Option Labels
  valueString : Option String
deriving DecidableEq, Repr

/-- The decoded top-level batch payload. -/
structure Payload where
  status : Option String
  alerts : Option (List Alert)
deriving DecidableEq, Repr

/-- The value of one entry of the `mp3match` configuration dict: either a
bare alert name (a TOML string) or a `[name, pattern]` pair (a TOML list);
`isinstance(params, list)` distinguishes the two in the source. -/
inductive MatchParam where
  | nameOnly : String → MatchParam
  | nameValue : String → Regex → MatchParam
deriving DecidableEq, Repr

/-- The `mp3match` dict: file path to match parameters, insertion order. -/
abbrev Mp3Match := List (String × MatchParam)

/-- The Python exceptions that can escape `handle_grafana_alert`:
`GrafanaPayloadException` (raised deliberately) and `AttributeError`
(from `alert.get("labels").get("alertname")` when `labels` is absent,
because `None` has no `get`). -/
inductive PyError where
  | grafanaPayload : String → PyError
  | attributeError : PyError
deriving DecidableEq, Repr

/-! ## AlertMatcher: handle_grafana_alert / handle_grafana_payload -/

/-- The value condition of a `[name, pattern]` rule entry, from
`alert_value = alert.get("valueString"); if alert_value and
re.match(value_match, alert_value)`: the value must be present, truthy
(non-empty), and `re.match` must succeed. -/
def valueCond (pat : Regex) (valueString : Option String) : Bool :=
  match valueString with
  | none => false
  | some v => if v = "" then false else reMatch pat v

/-- The `for file, params in mp3match.items()` loop of
`handle_grafana_alert` (musicalert.py lines 199-219).  On a name match
with a failing value condition the Python loop simply continues with the
next entry, which the recursion mirrors. -/
def matchLoop (alert_name : String) (valueString : Option String) :
    Mp3Match → List String → Bool × List String
  | [], q => (false, q)
  | (file, params) :: rest, q =>
    match params with
    | .nameOnly alert_name_match =>
      if alert_name_match = alert_name then (true, q ++ [file])
      else matchLoop alert_name valueString rest q
    | .nameValue alert_name_match value_match =>
      if alert_name_match = alert_name then
        if valueCond value_match valueString then (true, q ++ [file])
        else matchLoop alert_name valueString rest q
      else matchLoop alert_name valueString rest q

/-- `handle_grafana_alert` (musicalert.py lines 176-225).  Returns the
Python return value (or the escaping exception) together with the play
queue after the call; a `put` appends at the rear. -/
def handle_grafana_alert (alert : Alert) (mp3match : Mp3Match)
    (q : List String) : Except PyError Bool × List String :=
  match alert.status with
  | none => (Except.error (PyError.grafanaPayload "No status in the alert payload"), q)
  | some status =>
    if status ≠ "firing" then (Except.ok false, q)
    else
      match alert.labels with
      | none => (Except.error PyError.attributeError, q)
      | some labels =>
        match labels.alertname with
        | none => (Except.error (PyError.grafanaPayload "No alert_name in alert"), q)
        | some alert_name =>
          ((Except.ok (matchLoop alert_name alert.valueString mp3match q).1),
            (matchLoop alert_name alert.valueString mp3match q).2)

/-- The `for alert in alerts` loop of `handle_grafana_payload`
(musicalert.py lines 168-173): `queued` starts false and becomes true if
any item enqueued; an exception escapes at once, the queue keeping what
was already put. -/
def processAlerts (mp3match : Mp3Match) :
    List Alert → Bool → List String → Except PyError Bool × List String
  | [], queued, q => (Except.ok queued, q)
  | a :: rest, queued, q =>
    match handle_grafana_alert a mp3match q with
    | (Except.error e, q2) => (Except.error e, q2)
    | (Except.ok b, q2) => processAlerts mp3match rest (queued || b) q2

/-- `handle_grafana_payload` (musicalert.py lines 148-173).  The argument
is `Option Payload` because `json.loads` can produce `None`. -/
def handle_grafana_payload (payload : Option Payload) (mp3match : Mp3Match)
    (q : List String) : Except PyError Bool × List String :=
  match payload with
  | none => (Except.error (PyError.grafanaPayload "no payload, ignoring"), q)
  | some p =>
    match p.status with
    | none => (Except.error (PyError.grafanaPayload "No status in the alert payload"), q)
    | some _ =>
      match p.alerts with
      | none => (Except.error (PyError.grafanaPayload "No alerts in the alert payload"), q)
      | some alerts => processAlerts mp3match alerts false q

/-! ## WebhookListener: do_POST -/

/-- The request body after `json.loads`: either a decode failure
(`json.JSONDecodeError`) or a decoded value (`none` modelling JSON
`null`). -/
inductive DecodedBody where
  | decodeError : DecodedBody
  | value : Option Payload → DecodedBody
deriving DecidableEq, Repr

/-- The parts of an inbound POST request `do_POST` inspects. -/
structure Request where
  userAgent : Option String
  now : PyDatetime
  contentLength : Nat
  body : DecodedBody
deriving DecidableEq, Repr

/-- Outcome of `do_POST`: an HTTP response code with the play queue after
the call, or an exception the handler did not catch. -/
inductive Outcome where
  | response : Nat → List String → Outcome
  | uncaught : PyError → List String → Outcome
deriving DecidableEq, Repr

/-- `GrafanaAlertHandler.do_POST` (musicalert.py lines 61-113).  Note the
source tests `if not self.do_not_disturb(now)` and returns 200 early in
that branch, so the early return happens when do-not-disturb is NOT in
effect.  Only `GrafanaPayloadException` is caught and mapped to 400; any
other exception escapes. -/
def do_POST (mp3match : Mp3Match) (start_hr end_hr : Nat) (req : Request)
    (q : List String) : Outcome :=
  if req.userAgent ≠ some "Grafana" then Outcome.response 400 q
  else if do_not_disturb start_hr end_hr req.now = false then Outcome.response 200 q
  else if req.contentLength = 0 then Outcome.response 400 q
  else
    match req.body with
    | DecodedBody.decodeError => Outcome.response 400 q
    | DecodedBody.value p =>
      match handle_grafana_payload p mp3match q with
      | (Except.error (PyError.grafanaPayload _), q2) => Outcome.response 400 q2
      | (Except.error PyError.attributeError, q2) =>
          Outcome.uncaught PyError.attributeError q2
      | (Except.ok _, q2) => Outcome.response 200 q2

/-! ## PlaybackWorker: play_mp3 -/

/-- The `play_mp3` worker loop (musicalert.py lines 116-139) run over a
finite prefix of the queue contents: returns the paths for which a
player subprocess was spawned, in order, and the message of the raised
`OSError` if a dequeued path did not exist (which ends the worker). -/
def play_mp3_run (file_exists : String → Bool) :
    List String → List String × Option String
  | [] => ([], none)
  | path :: rest =>
    if file_exists path then
      ((path :: (play_mp3_run file_exists rest).1), (play_mp3_run file_exists rest).2)
    else ([], some ("file " ++ path ++ " does not exist"))

/-- `r.ok true` detection: the Boolean a successful `handle_grafana_alert`
call returned, `false` for an error. -/
def isOkTrue : Except PyError Bool → Bool
  | Except.ok b => b
  | Except.error _ => false

/-- Whether a `handle_grafana_alert` result is a normal return. -/
def exceptIsOk : Except PyError Bool → Bool
  | Except.ok _ => true
  | Except.error _ => false

/-! ## Helper lemmas -/

/-- The lexicographic strict order on datetimes is trichotomous: `a < b`
fails exactly when `b < a` or `a = b`. -/
theorem dtLt_false_iff (a b : PyDatetime) :
    dtLt a b = false ↔ (dtLt b a = true ∨ a = b) := by
  obtain ⟨y1, m1, d1, h1, n1⟩ := a
  obtain ⟨y2, m2, d2, h2, n2⟩ := b
  simp only [dtLt, PyDatetime.mk.injEq]
  split_ifs <;> simp_all <;> omega

/-- `matchLoop` only appends to the queue, and what it appends and returns
does not depend on the queue it starts from. -/
theorem matchLoop_factor (name : String) (v : Option String) (entries : Mp3Match)
    (q : List String) :
    matchLoop name v entries q
      = ((matchLoop name v entries []).1, q ++ (matchLoop name v entries []).2) := by
  induction entries generalizing q with
  | nil => simp [matchLoop]
  | cons e rest ih =>
    obtain ⟨file, params⟩ := e
    cases params with
    | nameOnly n =>
      by_cases h : n = name
      · simp [matchLoop, h]
      · simp only [matchLoop, if_neg h]
        exact ih q
    | nameValue n pat =>
      by_cases h : n = name
      · by_cases h2 : valueCond pat v = true
        · simp [matchLoop, h, h2]
        · simp only [matchLoop, if_pos h, if_neg h2]
          exact ih q
      · simp only [matchLoop, if_neg h]
        exact ih q

/-- `handle_grafana_alert` only appends to the queue, and its result does
not depend on the queue it starts from. -/
theorem handle_grafana_alert_factor (a : Alert) (m : Mp3Match) (q : List String) :
    handle_grafana_alert a m q
      = ((handle_grafana_alert a m []).1, q ++ (handle_grafana_alert a m []).2) := by
  obtain ⟨st, lb, v⟩ := a
  cases st with
  | none => simp [handle_grafana_alert]
  | some s =>
    by_cases hs : s = "firing"
    · subst hs
      cases lb with
      | none => simp [handle_grafana_alert]
      | some labels =>
        obtain ⟨an⟩ := labels
        cases an with
        | none => simp [handle_grafana_alert]
        | some nm => simp [handle_grafana_alert, matchLoop_factor nm v m q]
    · simp [handle_grafana_alert, hs]

/-- When `handle_grafana_alert` raises, the queue is untouched: both raise
sites precede the matching loop. -/
theorem handle_grafana_alert_error_queue (a : Alert) (m : Mp3Match) (q : List String)
    (e : PyError) (h : (handle_grafana_alert a m q).1 = Except.error e) :
    (handle_grafana_alert a m q).2 = q := by
  obtain ⟨st, lb, v⟩ := a
  cases st with
  | none => simp [handle_grafana_alert]
  | some s =>
    by_cases hs : s = "firing"
    · subst hs
      cases lb with
      | none => simp [handle_grafana_alert]
      | some labels =>
        obtain ⟨an⟩ := labels
        cases an with
        | none => simp [handle_grafana_alert]
        | some nm =>
          exfalso
          simp [handle_grafana_alert] at h
    · simp [handle_grafana_alert, hs]

/-- The alert loop splits over list append: the second part starts from
the flag and queue the first part ends with, unless the first part raised. -/
theorem processAlerts_append (m : Mp3Match) (l1 l2 : List Alert) (b : Bool)
    (q : List String) :
    processAlerts m (l1 ++ l2) b q
      = match processAlerts m l1 b q with
        | (Except.ok b1, q1) => processAlerts m l2 b1 q1
        | (Except.error e, q1) => (Except.error e, q1) := by
  induction l1 generalizing b q with
  | nil => simp [processAlerts]
  | cons a rest ih =>
    cases h : handle_grafana_alert a m q with
    | mk r q2 =>
      cases r with
      | error e => simp [processAlerts, h]
      | ok bb => simp [processAlerts, h, ih]

/-- When no alert item raises, the loop inspects every item: the returned
flag is the disjunction of the items' results and the queue receives every
item's enqueues, in order. -/
theorem processAlerts_no_error (m : Mp3Match) (alerts : List Alert) (b : Bool)
    (q : List String)
    (h : ∀ a ∈ alerts, exceptIsOk (handle_grafana_alert a m []).1 = true) :
    processAlerts m alerts b q
      = (Except.ok (b || alerts.any fun a => isOkTrue (handle_grafana_alert a m []).1),
         q ++ (alerts.map fun a => (handle_grafana_alert a m []).2).flatten) := by
  induction alerts generalizing b q with
  | nil => simp [processAlerts]
  | cons a rest ih =>
    have ha := h a (by simp)
    have hrest : ∀ x ∈ rest, exceptIsOk (handle_grafana_alert x m []).1 = true :=
      fun x hx => h x (by simp [hx])
    cases hr : (handle_grafana_alert a m []).1 with
    | error e => rw [hr] at ha; simp [exceptIsOk] at ha
    | ok ba =>
      have hfull : handle_grafana_alert a m q
          = (Except.ok ba, q ++ (handle_grafana_alert a m []).2) := by
        rw [handle_grafana_alert_factor a m q, hr]
      simp only [processAlerts, hfull]
      rw [ih (b || ba) _ hrest]
      simp [hr, isOkTrue, Bool.or_assoc]

/-! ## Claims -/

/-- C1 counterexample: with rule table
`[a.mp3 : [foo, bar], b.mp3 : foo]` and a firing alert named `foo` whose
value string `huh` fails the first entry's value condition, the scan does
NOT stop at the first name hit: the later entry `b.mp3 : foo` is
considered, matches, and its target is enqueued — the claim's predicted
outcome (no match, nothing enqueued) is false. -/
theorem first_name_hit_stops_scan_cex :
    reMatch (Regex.lit "bar") "huh" = false ∧
    handle_grafana_alert ⟨some "firing", some ⟨some "foo"⟩, some "huh"⟩
        [("a.mp3", MatchParam.nameValue "foo" (Regex.lit "bar")),
         ("b.mp3", MatchParam.nameOnly "foo")] []
      = (Except.ok true, ["b.mp3"]) :=
  ⟨by decide, rfl⟩

/-- C1 (amended): in `handle_grafana_alert`, a rule entry whose name
equals the alert name but whose value condition fails is skipped and the
scan CONTINUES with the remaining entries — evaluating the table with
such an entry at the front equals evaluating the table without it. -/
theorem failed_value_scan_continues (name file : String) (v : Option String)
    (pat : Regex) (rest : Mp3Match) (q : List String)
    (h : valueCond pat v = false) :
    handle_grafana_alert ⟨some "firing", some ⟨some name⟩, v⟩
        ((file, MatchParam.nameValue name pat) :: rest) q
      = handle_grafana_alert ⟨some "firing", some ⟨some name⟩, v⟩ rest q := by
  simp [handle_grafana_alert, matchLoop, h]

/-- C1 witness: concrete instance of `failed_value_scan_continues` at the
counterexample's inputs. -/
theorem failed_value_scan_continues_witness :
    handle_grafana_alert ⟨some "firing", some ⟨some "foo"⟩, some "huh"⟩
        [("a.mp3", MatchParam.nameValue "foo" (Regex.lit "bar")),
         ("b.mp3", MatchParam.nameOnly "foo")] []
      = handle_grafana_alert ⟨some "firing", some ⟨some "foo"⟩, some "huh"⟩
          [("b.mp3", MatchParam.nameOnly "foo")] [] :=
  failed_value_scan_continues "foo" "a.mp3" (some "huh") (Regex.lit "bar")
    [("b.mp3", MatchParam.nameOnly "foo")] [] (by decide)

/-- C2 counterexample: a firing alert named `Foo` does NOT match the rule
entry with configured name `foo` — the comparison in the source is
case-sensitive `==`, so the claimed case-insensitive match (which would
enqueue `foo.mp3`) is false. -/
theorem case_insensitive_name_match_cex :
    handle_grafana_alert ⟨some "firing", some ⟨some "Foo"⟩, none⟩
        [("foo.mp3", MatchParam.nameOnly "foo")] []
      = (Except.ok false, []) := rfl

/-- C2 (amended): for every rule entry with no value pattern and every
firing alert item, `handle_grafana_alert` matches the entry and enqueues
its target whenever the alert's name equals the entry's name EXACTLY
(case-sensitive string equality). -/
theorem name_only_exact_match (name file : String) (v : Option String)
    (rest : Mp3Match) (q : List String) :
    handle_grafana_alert ⟨some "firing", some ⟨some name⟩, v⟩
        ((file, MatchParam.nameOnly name) :: rest) q
      = (Except.ok true, q ++ [file]) := by
  simp [handle_grafana_alert, matchLoop]

/-- C3 counterexample: pattern `bar` is found in the middle of the value
string `one bar two` (regular-expression search succeeds), yet the entry
does not match: the source uses `re.match`, which anchors the pattern at
the start of the value string. -/
theorem value_pattern_search_cex :
    reSearch (Regex.lit "bar") "one bar two" = true ∧
    handle_grafana_alert ⟨some "firing", some ⟨some "foo"⟩, some "one bar two"⟩
        [("foo.mp3", MatchParam.nameValue "foo" (Regex.lit "bar"))] []
      = (Except.ok false, []) :=
  ⟨by decide, rfl⟩

/-- C3 (amended): for a rule entry with a value pattern and a firing
alert item whose name matches it, the entry matches iff the alert item
carries a non-empty value string on which the pattern succeeds under
`re.match` semantics — the pattern must match starting at the beginning
of the value string (a prefix), not merely be found somewhere inside. -/
theorem value_pattern_prefix_match (name file : String) (pat : Regex)
    (v : Option String) (q : List String) :
    handle_grafana_alert ⟨some "firing", some ⟨some name⟩, v⟩
        [(file, MatchParam.nameValue name pat)] q
      = (if valueCond pat v then (Except.ok true, q ++ [file])
         else (Except.ok false, q))
    ∧ (valueCond pat v = true ↔ ∃ s, v = some s ∧ s ≠ "" ∧ reMatch pat s = true) := by
  constructor
  · cases h : valueCond pat v <;> simp [handle_grafana_alert, matchLoop, h]
  · cases v with
    | none => simp [valueCond]
    | some s =>
      by_cases hs : s = "" <;> simp [valueCond, hs]

/-- C4: the gate allows alerting (`do_not_disturb` returns false) iff
`combine(now.date, start:00) <= now <= combine(now.date, end:00)`; in
particular, for the window (9, 22): 16:44 is allowed, 08:44 is not, and
22:05 is not. -/
theorem do_not_disturb_window :
    (∀ (s e : Nat) (now : PyDatetime),
        do_not_disturb s e now = false ↔
          dtLe (datetime_combine now.year now.month now.day s) now = true ∧
          dtLe now (datetime_combine now.year now.month now.day e) = true)
    ∧ do_not_disturb 9 22 ⟨2023, 8, 25, 16, 44⟩ = false
    ∧ do_not_disturb 9 22 ⟨2023, 8, 25, 8, 44⟩ = true
    ∧ do_not_disturb 9 22 ⟨2023, 8, 25, 22, 5⟩ = true := by
  refine ⟨?_, by decide, by decide, by decide⟩
  intro s e now
  simp only [do_not_disturb, dtLe, Bool.or_eq_false_iff, Bool.or_eq_true,
    decide_eq_true_eq, dtLt_false_iff]
  constructor
  · rintro ⟨ha, hb⟩
    exact ⟨ha.imp id Eq.symm, hb.imp id Eq.symm⟩
  · rintro ⟨ha, hb⟩
    exact ⟨ha.imp id Eq.symm, hb.imp id Eq.symm⟩

/-- C5: for a batch payload with a top-level status, a missing `alerts`
key raises `GrafanaPayloadException`; `alerts: []` yields no error, no
enqueue and no match; and when no item raises, EVERY alert item is
evaluated (no short-circuit after the first match): the result is the
disjunction of all items' outcomes and the queue receives every item's
enqueues. -/
theorem batch_payload_spec (st : String) (m : Mp3Match) (q : List String)
    (alerts : List Alert)
    (h : ∀ a ∈ alerts, exceptIsOk (handle_grafana_alert a m []).1 = true) :
    handle_grafana_payload (some ⟨some st, none⟩) m q
        = (Except.error (PyError.grafanaPayload "No alerts in the alert payload"), q)
    ∧ handle_grafana_payload (some ⟨some st, some []⟩) m q = (Except.ok false, q)
    ∧ handle_grafana_payload (some ⟨some st, some alerts⟩) m q
        = (Except.ok (alerts.any fun a => isOkTrue (handle_grafana_alert a m []).1),
           q ++ (alerts.map fun a => (handle_grafana_alert a m []).2).flatten) := by
  refine ⟨rfl, rfl, ?_⟩
  simp only [handle_grafana_payload]
  rw [processAlerts_no_error m alerts false q h]
  simp

/-- C5 witness: a two-item batch (one matching firing item, one resolved
item) against a one-entry table: both items are evaluated, the flag is
their disjunction and only the first enqueues. -/
theorem batch_payload_spec_witness :
    handle_grafana_payload
        (some ⟨some "firing",
          some [⟨some "firing", some ⟨some "foo"⟩, none⟩,
                ⟨some "resolved", some ⟨some "bar"⟩, none⟩]⟩)
        [("foo.mp3", MatchParam.nameOnly "foo")] []
      = (Except.ok
           ([⟨some "firing", some ⟨some "foo"⟩, none⟩,
             (⟨some "resolved", some ⟨some "bar"⟩, none⟩ : Alert)].any fun a =>
               isOkTrue (handle_grafana_alert a
                 [("foo.mp3", MatchParam.nameOnly "foo")] []).1),
         [] ++ (([⟨some "firing", some ⟨some "foo"⟩, none⟩,
             (⟨some "resolved", some ⟨some "bar"⟩, none⟩ : Alert)].map fun a =>
               (handle_grafana_alert a
                 [("foo.mp3", MatchParam.nameOnly "foo")] []).2)).flatten) :=
  (batch_payload_spec "firing" [("foo.mp3", MatchParam.nameOnly "foo")] []
    [⟨some "firing", some ⟨some "foo"⟩, none⟩,
     ⟨some "resolved", some ⟨some "bar"⟩, none⟩] (by decide)).2.2

/-- C6: an alert item whose status is present but differs from the firing
sentinel produces no match and enqueues nothing, whatever its name or
value string, and raises nothing. -/
theorem non_firing_no_match (alert : Alert) (m : Mp3Match) (q : List String)
    (st : String) (hst : alert.status = some st) (hne : st ≠ "firing") :
    handle_grafana_alert alert m q = (Except.ok false, q) := by
  simp [handle_grafana_alert, hst, hne]

/-- C6 witness: a resolved alert whose name matches the table still
yields no match and an unchanged queue. -/
theorem non_firing_no_match_witness :
    handle_grafana_alert ⟨some "resolved", some ⟨some "foo"⟩, none⟩
        [("foo.mp3", MatchParam.nameOnly "foo")] []
      = (Except.ok false, []) :=
  non_firing_no_match ⟨some "resolved", some ⟨some "foo"⟩, none⟩
    [("foo.mp3", MatchParam.nameOnly "foo")] [] "resolved" rfl (by decide)

/-- C7 code bug: `do_POST` tests `if not self.do_not_disturb(now)` and so
suppresses exactly the requests the claim (and the handler's own log
message) says it should process: at 16:44 inside the window (9, 22) a
well-formed matching request gets 200 with NOTHING enqueued, while at
23:00 outside the window the same request is fully processed and its
target enqueued. -/
theorem do_POST_window_inverted :
    do_not_disturb 9 22 ⟨2023, 8, 25, 16, 44⟩ = false ∧
    do_POST [("foo.mp3", MatchParam.nameOnly "foo")] 9 22
        ⟨some "Grafana", ⟨2023, 8, 25, 16, 44⟩, 50,
          DecodedBody.value (some ⟨some "firing",
            some [⟨some "firing", some ⟨some "foo"⟩, none⟩]⟩)⟩ []
      = Outcome.response 200 [] ∧
    do_not_disturb 9 22 ⟨2023, 8, 25, 23, 0⟩ = true ∧
    do_POST [("foo.mp3", MatchParam.nameOnly "foo")] 9 22
        ⟨some "Grafana", ⟨2023, 8, 25, 23, 0⟩, 50,
          DecodedBody.value (some ⟨some "firing",
            some [⟨some "firing", some ⟨some "foo"⟩, none⟩]⟩)⟩ []
      = Outcome.response 200 ["foo.mp3"] :=
  ⟨by decide, by decide, by decide, by decide⟩

/-- C8: a dequeued target that no longer exists on disk makes the worker
raise an OSError before spawning any player subprocess for it: the
targets played are exactly the existing ones dequeued before it, and the
missing one (and everything after it) is never played. -/
theorem missing_media_raises (fs : String → Bool) (pre : List String) (p : String)
    (post : List String) (hpre : ∀ x ∈ pre, fs x = true) (hp : fs p = false) :
    play_mp3_run fs (pre ++ p :: post)
      = (pre, some ("file " ++ p ++ " does not exist")) := by
  induction pre with
  | nil => simp [play_mp3_run, hp]
  | cons a rest ih =>
    have ha : fs a = true := hpre a (by simp)
    have hr : ∀ x ∈ rest, fs x = true := fun x hx => hpre x (by simp [hx])
    simp [play_mp3_run, ha, ih hr]

/-- C8 witness: with `a.mp3` present and `gone.mp3` missing, the worker
plays `a.mp3`, then raises on `gone.mp3`; `b.mp3` is never played. -/
theorem missing_media_raises_witness :
    play_mp3_run (fun s => !(s == "gone.mp3")) ["a.mp3", "gone.mp3", "b.mp3"]
      = (["a.mp3"], some ("file " ++ "gone.mp3" ++ " does not exist")) :=
  missing_media_raises (fun s => !(s == "gone.mp3")) ["a.mp3"] "gone.mp3" ["b.mp3"]
    (by decide) (by decide)

/-- C9: batch evaluation is not atomic on structural error: if the first
alert items run without raising (ending with queue `q1`) and the next
item raises, `handle_grafana_payload` propagates that error with the
queue exactly as the earlier items left it — earlier enqueues of the
same request are not undone, and later items are not evaluated. -/
theorem batch_error_keeps_prior_enqueues (st : String) (m : Mp3Match)
    (good : List Alert) (bad : Alert) (rest : List Alert)
    (q0 q1 : List String) (b : Bool) (e : PyError)
    (hgood : processAlerts m good false q0 = (Except.ok b, q1))
    (hbad : (handle_grafana_alert bad m q1).1 = Except.error e) :
    handle_grafana_payload (some ⟨some st, some (good ++ bad :: rest)⟩) m q0
      = (Except.error e, q1) := by
  have hq : (handle_grafana_alert bad m q1).2 = q1 :=
    handle_grafana_alert_error_queue bad m q1 e hbad
  simp only [handle_grafana_payload]
  rw [processAlerts_append m good (bad :: rest) false q0, hgood]
  simp only [processAlerts]
  cases h : handle_grafana_alert bad m q1 with
  | mk r q2 =>
    rw [h] at hbad hq
    simp only at hbad hq
    subst hq
    cases r with
    | error e2 => simp_all
    | ok bb => simp_all

/-- C9 witness: first item matches and enqueues `foo.mp3`; second item is
firing but its labels lack `alertname`, raising
`GrafanaPayloadException`; the error propagates with `foo.mp3` still on
the queue. -/
theorem batch_error_keeps_prior_enqueues_witness :
    handle_grafana_payload
        (some ⟨some "firing",
          some [⟨some "firing", some ⟨some "foo"⟩, none⟩,
                ⟨some "firing", some ⟨none⟩, none⟩]⟩)
        [("foo.mp3", MatchParam.nameOnly "foo")] []
      = (Except.error (PyError.grafanaPayload "No alert_name in alert"), ["foo.mp3"]) :=
  batch_error_keeps_prior_enqueues "firing" [("foo.mp3", MatchParam.nameOnly "foo")]
    [⟨some "firing", some ⟨some "foo"⟩, none⟩] ⟨some "firing", some ⟨none⟩, none⟩ []
    [] ["foo.mp3"] true (PyError.grafanaPayload "No alert_name in alert") rfl rfl

/-- C10: a firing alert item with no labels object at all makes
`handle_grafana_alert` raise `AttributeError` (from calling `.get` on
`None`), which is not the `GrafanaPayloadException` that `do_POST`
catches: the request escapes the 400 mapping as an uncaught exception
instead of being rejected as a malformed alert. -/
theorem missing_labels_escapes (alert : Alert) (m : Mp3Match) (q : List String)
    (now : PyDatetime) (s e cl : Nat)
    (hs : alert.status = some "firing") (hl : alert.labels = none)
    (hw : do_not_disturb s e now = true) (hcl : cl ≠ 0) :
    (handle_grafana_alert alert m q).1 = Except.error PyError.attributeError
    ∧ do_POST m s e ⟨some "Grafana", now, cl, DecodedBody.value
          (some ⟨some "firing", some [alert]⟩)⟩ q
        = Outcome.uncaught PyError.attributeError q := by
  have h1 : handle_grafana_alert alert m q = (Except.error PyError.attributeError, q) := by
    simp [handle_grafana_alert, hs, hl]
  refine ⟨by rw [h1], ?_⟩
  simp [do_POST, hw, hcl, handle_grafana_payload, processAlerts, h1]

/-- C10 witness: a concrete firing alert with no labels, posted from
Grafana at 23:00 (a time the handler processes), ends as an uncaught
`AttributeError`, not a 400 response. -/
theorem missing_labels_escapes_witness :
    (handle_grafana_alert ⟨some "firing", none, none⟩ [] []).1
        = Except.error PyError.attributeError
    ∧ do_POST [] 9 22 ⟨some "Grafana", ⟨2023, 8, 25, 23, 0⟩, 1, DecodedBody.value
          (some ⟨some "firing", some [⟨some "firing", none, none⟩]⟩)⟩ []
        = Outcome.uncaught PyError.attributeError [] :=
  missing_labels_escapes ⟨some "firing", none, none⟩ [] [] ⟨2023, 8, 25, 23, 0⟩ 9 22 1
    rfl rfl (by decide) (by decide)

end Musicalert
